import Mathlib

/-!
# PersonaChat backend — verification of the plugin-mediated message pipeline

A shallow embedding of the chat pipeline of the PersonaChat backend
(`backend/app/main.py` `chat`, `backend/app/plugins/manager.py`
`PluginManager.run_process_input_hooks` / `run_process_output_hooks`,
`backend/app/storage/chat_history.py` `ChatHistoryManager`,
`backend/app/services/rag_service.py` `perform_rag_search`,
`backend/app/services/ai_service.py` providers), together with theorems
settling the specification's claims about it.

Modelling conventions:
* The SQLite message table is modelled as a list of rows in insertion order;
  row insertion order coincides with `timestamp` order (the code's
  `ORDER BY timestamp ASC` on rows inserted sequentially), so
  `ORDER BY timestamp ASC` is the identity on the per-conversation sublist.
* Python exceptions raised by a plugin hook are modelled by the
  `HookRes.raises` constructor; a hook that returns normally is
  `HookRes.ok result ctx'` where `result` is the `Optional[str]` return value
  and `ctx'` the (possibly mutated) shared context dictionary after the call.
  `raises` also carries the context state, because a Python hook can mutate
  the shared dict before raising.
* External collaborators (embedding generator, vector-store search, the
  provider's HTTP round trip) are oracles passed in as function parameters;
  `Option`/`Except` failure values model the exceptions they can raise.
  Relevance scores are carried as their rendered (`%.2f`) strings, since the
  pipeline never computes with them.
* The module-level wiring of `main.py` (the global `plugin_manager`,
  `vector_store`, `embedding_generator` singletons) is modelled by passing
  these collaborators to `chat` as parameters.
-/

namespace PersonaChat

/-- Python's `str.startswith`: a code-point-level prefix test. -/
def pyStartsWith (s pre : String) : Bool :=
  s.data.take pre.data.length == pre.data

/-- Python's slice `s[n:]`: drop the first `n` code points. -/
def pyDrop (s : String) (n : Nat) : String :=
  String.mk (s.data.drop n)

/-- Python's `str.lower`, restricted to the code-point-wise case mapping. -/
def pyToLower (s : String) : String :=
  String.mk (s.data.map Char.toLower)

/-- One `{role, content}` pair of the model's running context
(`main.py`, the `messages` list). -/
structure Msg where
  role : String
  content : String
deriving DecidableEq, Repr

/-- The mutable `process_context` dictionary threaded through one pipeline
invocation (`main.py` seeds `conversation_id`, `provider`, `model`; plugins may
set `bypass_ai` and arbitrary further keys, modelled by `extra`).
`context.get('bypass_ai', False)` has default `false`, so the seeded context
carries `bypass_ai := false`. -/
structure PipelineCtx where
  conversation_id : Nat
  provider : String
  model : String
  bypass_ai : Bool
  extra : List (String × String)
deriving DecidableEq, Repr

/-- The context `chat` seeds for one request (`main.py` lines 176-180). -/
def initCtx (conversation_id : Nat) (provider model : String) : PipelineCtx :=
  ⟨conversation_id, provider, model, false, []⟩

/-- Outcome of invoking one plugin hook: a normal return carrying the
`Optional[str]` result and the shared context after the call, or a raised
exception (`raises`), which also carries the context since a hook can mutate
the shared dict before raising. -/
inductive HookRes where
  | ok (result : Option String) (ctx : PipelineCtx)
  | raises (ctx : PipelineCtx)
deriving DecidableEq, Repr

/-- A loaded plugin as the hook chain sees it (`plugins/base.py` `BasePlugin`,
fields `_enabled`, `process_input`, `process_output`). -/
structure Plugin where
  name : String
  enabled : Bool
  process_input : String → PipelineCtx → HookRes
  process_output : String → PipelineCtx → HookRes

/-- How the input phase ended: early return because `bypass_ai` was set,
`break` on an empty replacement, or the loop running to completion.
Ghost information: the source returns only the text (the context is shared
by reference); this field records which exit the control flow took. -/
inductive PhaseExit where
  | bypass
  | emptyBreak
  | completed
deriving DecidableEq, Repr

/-- Result of the input phase: final text, final shared context, and which
exit was taken (ghost). -/
structure InputPhaseResult where
  text : String
  ctx : PipelineCtx
  exit : PhaseExit
deriving DecidableEq, Repr

/-- Embeds `PluginManager.run_process_input_hooks` (`plugins/manager.py` lines
130-144): iterate the plugins in registration order; a disabled plugin is
skipped; an exception is caught and the prior text kept; a non-null result
replaces the text, after which the loop returns early if `bypass_ai` is set
in the shared context, and breaks if the replacement is the empty string. -/
def runProcessInputHooks : List Plugin → String → PipelineCtx → InputPhaseResult
  | [], text, ctx => ⟨text, ctx, .completed⟩
  | p :: ps, text, ctx =>
    if p.enabled then
      match p.process_input text ctx with
      | .raises ctx' => runProcessInputHooks ps text ctx'
      | .ok none ctx' => runProcessInputHooks ps text ctx'
      | .ok (some r) ctx' =>
        if ctx'.bypass_ai then ⟨r, ctx', .bypass⟩
        else if r = "" then ⟨r, ctx', .emptyBreak⟩
        else runProcessInputHooks ps r ctx'
    else runProcessInputHooks ps text ctx

/-- Result of the output phase: final text and final shared context. -/
structure OutputPhaseResult where
  text : String
  ctx : PipelineCtx
deriving DecidableEq, Repr

/-- Embeds `PluginManager.run_process_output_hooks` (`plugins/manager.py` lines
146-156): same iteration and error isolation as the input phase, but with no
bypass or empty-string early exit. -/
def runProcessOutputHooks : List Plugin → String → PipelineCtx → OutputPhaseResult
  | [], text, ctx => ⟨text, ctx⟩
  | p :: ps, text, ctx =>
    if p.enabled then
      match p.process_output text ctx with
      | .raises ctx' => runProcessOutputHooks ps text ctx'
      | .ok none ctx' => runProcessOutputHooks ps text ctx'
      | .ok (some r) ctx' => runProcessOutputHooks ps r ctx'
    else runProcessOutputHooks ps text ctx

/-! ## Conversation store (`storage/chat_history.py`) -/

/-- One row of the `messages` table (`chat_history.py` lines 39-50); the
`timestamp` column is represented by the row's position in the store list
(rows are inserted sequentially, so insertion order is timestamp order). -/
structure StoredMessage where
  conversation_id : Nat
  role : String
  content : String
  model_used : Option String
  metadata : Option String
deriving DecidableEq, Repr

/-- The persistent state of `ChatHistoryManager`: the `messages` rows in
insertion (= timestamp) order, plus the `conversations` AUTOINCREMENT
counter. -/
structure ChatState where
  store : List StoredMessage
  nextConv : Nat
deriving DecidableEq, Repr

/-- Embeds `ChatHistoryManager.create_conversation` (`chat_history.py` lines 54-63):
insert a conversation row and return its fresh id. -/
def create_conversation (st : ChatState) : Nat × ChatState :=
  (st.nextConv, ⟨st.store, st.nextConv + 1⟩)

/-- Embeds `ChatHistoryManager.add_message` (`chat_history.py` lines 65-83): append
one row to the `messages` table. -/
def add_message (st : ChatState) (conversation_id : Nat) (role content : String)
    (model_used : Option String) (metadata : Option String) : ChatState :=
  ⟨st.store ++ [⟨conversation_id, role, content, model_used, metadata⟩], st.nextConv⟩

/-- Embeds `ChatHistoryManager.get_messages` (`chat_history.py` lines 85-114):
`SELECT * FROM messages WHERE conversation_id = ? ORDER BY timestamp ASC`,
with a `LIMIT` clause appended only when the Python `limit` argument is
truthy — so `limit = None` and `limit = 0` both return all rows.  Note the
`LIMIT` applies after the ascending order, so a truthy limit keeps the
OLDEST `limit` rows. -/
def get_messages (store : List StoredMessage) (conversation_id : Nat)
    (limit : Option Nat) : List StoredMessage :=
  let msgs := store.filter (fun m => m.conversation_id = conversation_id)
  if limit.getD 0 = 0 then msgs else msgs.take (limit.getD 0)

/-! ## RAG service (`services/rag_service.py`) -/

/-- An embedding vector; the pipeline only passes it through to the search
oracle, so its element type is immaterial. -/
abbrev Vec := List Int

/-- One retrieved document chunk as `perform_rag_search` consumes it:
`chunk.content` and `chunk.metadata.get('source', 'Unknown')`. -/
structure Chunk where
  content : String
  source : Option String
deriving DecidableEq, Repr

/-- The labelled block `perform_rag_search` builds for one `(chunk, score)`
result (`rag_service.py` line 30); `score` is the rendered `f"{score:.2f}"`
string. -/
def formatChunk (c : Chunk) (score : String) : String :=
  "Source: " ++ c.source.getD "Unknown" ++ " (Score: " ++ score ++ ")\nContent: " ++ c.content

/-- Embeds `perform_rag_search` (`rag_service.py` lines 6-37): embed the query,
search the vector store, and join the formatted results with `"\n---\n"`;
an exception anywhere in the `try` block (embedding or search, modelled by
the oracles returning `none`) or an empty result list yields `""`. -/
def perform_rag_search (embed : String → Option Vec)
    (search : Vec → Option (List (Chunk × String))) (query : String) : String :=
  match embed query with
  | none => ""
  | some v =>
    match search v with
    | none => ""
    | some results =>
      if results = [] then ""
      else String.intercalate "\n---\n"
        (results.map (fun r => formatChunk r.1 r.2))

/-! ## Provider abstraction (`services/ai_service.py`) -/

/-- A registered provider: its configured API key (`none` models a missing
key; the source's check is the falsy `if not self.api_key`, so the empty
string is also unconfigured) and its HTTP round trip as an oracle — `.ok`
is the extracted completion text, `.error` the detail string of the
`ValueError` the provider raises for a request/HTTP-status failure. -/
structure Provider where
  apiKey : Option String
  net : List Msg → String → Except String String

/-- Embeds `GroqProvider.generate` (`ai_service.py` lines 36-66): raise `ValueError`
when no API key is configured; otherwise one network attempt whose failure is
re-raised as a `ValueError` with the upstream detail (no retry). -/
def Provider.generate (p : Provider) (messages : List Msg) (model : String) :
    Except String String :=
  if p.apiKey.getD "" = "" then .error "Groq API key not configured"
  else
    match p.net messages model with
    | .ok content => .ok content
    | .error e => .error e

/-- Errors `call_ai` can raise: `valueError` is the `ValueError` the provider
implementations raise (missing credential, request error, upstream non-2xx);
`notFound` is the registry-resolution failure for an unknown provider name. -/
inductive AIError where
  | valueError (detail : String)
  | notFound (detail : String)
deriving DecidableEq, Repr

/-- Modelled from the spec: the registry lookup of `AIServiceManager`. The
manager's provider-dictionary keys are the lowercase names registered in
`AIServiceManager.__init__` (`ai_service.py` lines 228-256); the spec (§4.1)
states the lookup resolving `name -> ProviderDescriptor` is
case-insensitive, so the queried name is lowercased before the lookup. -/
def lookupProvider (providers : List (String × Provider)) (name : String) :
    Option Provider :=
  (providers.find? (fun kv => kv.1 = pyToLower name)).map (fun kv => kv.2)

/-- Modelled from the spec: `AIServiceManager.call_ai` is invoked by
`main.py` (line 220) but no definition of it exists in the source; per §4.1
of the spec it resolves the provider name case-insensitively in the registry,
raises a `NotFoundError` for an unknown name (never silently defaulting to
another provider), and otherwise forwards to the resolved provider's
`generate` (embedded above from `GroqProvider.generate`). The `Bool`
component is ghost instrumentation: whether some provider's `generate` was
invoked. -/
def call_ai (providers : List (String × Provider)) (provider_name model : String)
    (messages : List Msg) : Except AIError String × Bool :=
  match lookupProvider providers provider_name with
  | none => (.error (.notFound ("Provider not found: " ++ provider_name)), false)
  | some p =>
    (match p.generate messages model with
     | .ok content => .ok content
     | .error e => .error (.valueError e), true)

/-! ## The chat endpoint (`main.py` lines 158-253) -/

/-- The body of a successful `/chat` response (`main.py` `ChatResponse`). -/
structure ChatResponse where
  response : String
  conversation_id : Nat
deriving DecidableEq, Repr

/-- The `HTTPException`s the `chat` handler raises: `badRequest` is the
status-400 response built from a `ValueError`, `internal` the status-500
response built from any other exception (`main.py` lines 250-253). -/
inductive ChatError where
  | badRequest (detail : String)
  | internal (detail : String)
deriving DecidableEq, Repr

/-- The HTTP status code of a `ChatError`. -/
def ChatError.status : ChatError → Nat
  | .badRequest _ => 400
  | .internal _ => 500

/-- Full outcome of one `chat` invocation: the HTTP result, the store state
afterwards, and ghost instrumentation — the message list assembled for the
provider, whether a provider's `generate` was invoked, and whether
`perform_rag_search` was invoked. -/
structure ChatOutcome where
  response : Except ChatError ChatResponse
  state : ChatState
  assembledMessages : List Msg
  generateInvoked : Bool
  ragInvoked : Bool

/-- Embeds `main.py` lines 162-164: `if not conversation_id:` — a missing id and the
falsy id `0` both create a fresh conversation. -/
def resolve_conversation (st : ChatState) (conversation_id : Option Nat) :
    Nat × ChatState :=
  if conversation_id.getD 0 = 0 then create_conversation st
  else (conversation_id.getD 0, st)

/-- Python's `list.insert(-1, x)`: insert `x` immediately before the last
element (`main.py` line 201). -/
def insertBeforeLast (l : List Msg) (x : Msg) : List Msg :=
  l.dropLast ++ x :: l.drop (l.length - 1)

/-- Embeds `main.py` line 195: after a `/rag ` trigger the trigger is stripped
(`user_message[5:]`) and the remainder is the message actually used. -/
def strippedUserMessage (t : String) : String :=
  if pyStartsWith t "/rag " then pyDrop t 5 else t

/-- Embeds `main.py` lines 187-194: retrieval runs exactly when the post-input-hook
text starts with `"/rag "`, on the text with the trigger stripped. -/
def ragContextOf (embed : String → Option Vec)
    (search : Vec → Option (List (Chunk × String))) (t : String) : String :=
  if pyStartsWith t "/rag " then perform_rag_search embed search (pyDrop t 5) else ""

/-- The system-message prefix injected before the retrieved context
(`main.py` line 203). -/
def ragInstruction : String :=
  "Use the following context to answer the user's question:\n"

/-- Embeds `main.py` lines 197-204: append the user message to the history and,
when the retrieved context is truthy (non-empty), insert one system message
immediately before it. -/
def assembleMessages (history : List Msg) (userMessage ragContext : String) :
    List Msg :=
  let m1 := history ++ [⟨"user", userMessage⟩]
  if ragContext = "" then m1
  else insertBeforeLast m1 ⟨"system", ragInstruction ++ ragContext⟩

/-- The `chat` endpoint (`main.py` lines 158-253): resolve the conversation,
load the last-10-limited history, run the input hooks, do the RAG trigger
check and message assembly, then either return the bypassed text (persisting
it as the user message) or call the provider, run the output hooks, persist
the user and `"ai"` rows, and return the transformed text. A `ValueError`
from the provider call becomes a 400, any other exception (in particular the
modelled `NotFoundError`) a 500 with an `"Internal server error: "` prefix. -/
def chat (plugins : List Plugin) (providers : List (String × Provider))
    (embed : String → Option Vec) (search : Vec → Option (List (Chunk × String)))
    (st : ChatState) (message : String) (conversation_id : Option Nat)
    (provider model : String) : ChatOutcome :=
  let rc := resolve_conversation st conversation_id
  let cid := rc.1
  let st1 := rc.2
  let history := (get_messages st1.store cid (some 10)).map
    (fun m => Msg.mk m.role m.content)
  let hr := runProcessInputHooks plugins message (initCtx cid provider model)
  let userMessage := strippedUserMessage hr.text
  let ragContext := ragContextOf embed search hr.text
  let msgs := assembleMessages history userMessage ragContext
  let ragI := pyStartsWith hr.text "/rag "
  if hr.ctx.bypass_ai then
    { response := .ok ⟨userMessage, cid⟩
      state := add_message st1 cid "user" userMessage none none
      assembledMessages := msgs
      generateInvoked := false
      ragInvoked := ragI }
  else
    match call_ai providers provider model msgs with
    | (.error (.valueError d), inv) =>
      { response := .error (.badRequest d), state := st1,
        assembledMessages := msgs, generateInvoked := inv, ragInvoked := ragI }
    | (.error (.notFound d), inv) =>
      { response := .error (.internal ("Internal server error: " ++ d)),
        state := st1, assembledMessages := msgs, generateInvoked := inv,
        ragInvoked := ragI }
    | (.ok content, inv) =>
      let outr := runProcessOutputHooks plugins content hr.ctx
      { response := .ok ⟨outr.text, cid⟩
        state := add_message (add_message st1 cid "user" userMessage none none)
          cid "ai" outr.text (some model) none
        assembledMessages := msgs
        generateInvoked := inv
        ragInvoked := ragI }

/-! ## Generic instances and helper lemmas -/

instance instDecEqExcept {ε α : Type} [DecidableEq ε] [DecidableEq α] :
    DecidableEq (Except ε α)
  | .ok a, .ok b =>
    if h : a = b then .isTrue (by rw [h]) else .isFalse (by simp [h])
  | .ok _, .error _ => .isFalse (by simp)
  | .error _, .ok _ => .isFalse (by simp)
  | .error a, .error b =>
    if h : a = b then .isTrue (by rw [h]) else .isFalse (by simp [h])

/-- Resolving an explicitly given, truthy conversation id leaves the store
untouched. -/
theorem resolve_conversation_some (st : ChatState) (cid : Nat) (h : cid ≠ 0) :
    resolve_conversation st (some cid) = (cid, st) := by
  simp [resolve_conversation, h]

/-- If a prefix of the chain runs to completion (no short circuit), the whole
chain continues from the prefix's final text and context. -/
theorem runProcessInputHooks_append (pre rest : List Plugin) (text t' : String)
    (ctx c' : PipelineCtx)
    (h : runProcessInputHooks pre text ctx = ⟨t', c', .completed⟩) :
    runProcessInputHooks (pre ++ rest) text ctx = runProcessInputHooks rest t' c' := by
  induction pre generalizing text ctx with
  | nil =>
    simp only [runProcessInputHooks, InputPhaseResult.mk.injEq] at h
    obtain ⟨rfl, rfl, -⟩ := h
    simp
  | cons p ps ih =>
    simp only [List.cons_append, runProcessInputHooks] at h ⊢
    by_cases hp : p.enabled
    · simp only [hp, if_true] at h ⊢
      cases hres : p.process_input text ctx with
      | raises ctx2 => rw [hres] at h; exact ih _ _ h
      | ok r ctx2 =>
        rw [hres] at h
        cases r with
        | none => exact ih _ _ h
        | some s =>
          by_cases hb : ctx2.bypass_ai
          · simp [hb] at h
          · simp only [hb, if_false, Bool.false_eq_true] at h ⊢
            by_cases he : s = ""
            · simp [he] at h
            · simp only [he, if_false] at h ⊢
              exact ih _ _ h
    · simp only [hp, if_false, Bool.false_eq_true] at h ⊢
      exact ih _ _ h

/-- Python's `insert(-1, x)` on a list with last element `a` places `x`
immediately before `a`. -/
theorem insertBeforeLast_concat (l : List Msg) (a x : Msg) :
    insertBeforeLast (l ++ [a]) x = l ++ [x, a] := by
  simp [insertBeforeLast]

/-- Unfolding `assembleMessages`: the user message is last, and a truthy
(non-empty) retrieved context contributes exactly one system message
immediately before it. -/
theorem assembleMessages_eq (h : List Msg) (u rc : String) :
    assembleMessages h u rc =
      h ++ (if rc = "" then [⟨"user", u⟩]
            else [⟨"system", ragInstruction ++ rc⟩, ⟨"user", u⟩]) := by
  by_cases hrc : rc = "" <;>
    simp [assembleMessages, hrc, insertBeforeLast_concat]

/-- Characterization of `chat` when the input phase ends with `bypass_ai`
set: the (trigger-stripped) hook-chain text is persisted as the sole `user`
message and returned; no provider `generate` runs; retrieval ran exactly
when the hook-chain text carries the `"/rag "` trigger. -/
theorem chat_bypass_spec (plugins : List Plugin) (providers : List (String × Provider))
    (embed : String → Option Vec) (search : Vec → Option (List (Chunk × String)))
    (st : ChatState) (message : String) (cid : Nat) (provider model : String)
    (t : String) (c : PipelineCtx) (ex : PhaseExit)
    (hcid : cid ≠ 0)
    (hhr : runProcessInputHooks plugins message (initCtx cid provider model) = ⟨t, c, ex⟩)
    (hbp : c.bypass_ai = true) :
    chat plugins providers embed search st message (some cid) provider model =
      { response := .ok ⟨strippedUserMessage t, cid⟩
        state := add_message st cid "user" (strippedUserMessage t) none none
        assembledMessages := assembleMessages
          ((get_messages st.store cid (some 10)).map (fun m => Msg.mk m.role m.content))
          (strippedUserMessage t) (ragContextOf embed search t)
        generateInvoked := false
        ragInvoked := pyStartsWith t "/rag " } := by
  simp only [chat, resolve_conversation_some st cid hcid, hhr, hbp, if_true]

/-- Characterization of `chat` on the happy path: no bypass, the provider
resolves and generates, the output hooks transform the text, and the user
and `"ai"` rows are appended. -/
theorem chat_success_spec (plugins : List Plugin) (providers : List (String × Provider))
    (embed : String → Option Vec) (search : Vec → Option (List (Chunk × String)))
    (st : ChatState) (message : String) (cid : Nat) (provider model : String)
    (t content out : String) (c c2 : PipelineCtx) (ex : PhaseExit) (pr : Provider)
    (hcid : cid ≠ 0)
    (hhr : runProcessInputHooks plugins message (initCtx cid provider model) = ⟨t, c, ex⟩)
    (hbp : c.bypass_ai = false)
    (hlk : lookupProvider providers provider = some pr)
    (hgen : pr.generate (assembleMessages
        ((get_messages st.store cid (some 10)).map (fun m => Msg.mk m.role m.content))
        (strippedUserMessage t) (ragContextOf embed search t)) model = .ok content)
    (hout : runProcessOutputHooks plugins content c = ⟨out, c2⟩) :
    chat plugins providers embed search st message (some cid) provider model =
      { response := .ok ⟨out, cid⟩
        state := add_message
          (add_message st cid "user" (strippedUserMessage t) none none)
          cid "ai" out (some model) none
        assembledMessages := assembleMessages
          ((get_messages st.store cid (some 10)).map (fun m => Msg.mk m.role m.content))
          (strippedUserMessage t) (ragContextOf embed search t)
        generateInvoked := true
        ragInvoked := pyStartsWith t "/rag " } := by
  simp only [chat, resolve_conversation_some st cid hcid, hhr, hbp,
    call_ai, hlk, hgen, hout, Bool.false_eq_true, if_false]

/-- Characterization of `chat` when the resolved provider's `generate`
raises a `ValueError` (missing credential or upstream failure): a 400 is
surfaced and the store is left untouched. -/
theorem chat_value_error_spec (plugins : List Plugin) (providers : List (String × Provider))
    (embed : String → Option Vec) (search : Vec → Option (List (Chunk × String)))
    (st : ChatState) (message : String) (cid : Nat) (provider model : String)
    (t d : String) (c : PipelineCtx) (ex : PhaseExit) (pr : Provider)
    (hcid : cid ≠ 0)
    (hhr : runProcessInputHooks plugins message (initCtx cid provider model) = ⟨t, c, ex⟩)
    (hbp : c.bypass_ai = false)
    (hlk : lookupProvider providers provider = some pr)
    (hgen : pr.generate (assembleMessages
        ((get_messages st.store cid (some 10)).map (fun m => Msg.mk m.role m.content))
        (strippedUserMessage t) (ragContextOf embed search t)) model = .error d) :
    chat plugins providers embed search st message (some cid) provider model =
      { response := .error (.badRequest d)
        state := st
        assembledMessages := assembleMessages
          ((get_messages st.store cid (some 10)).map (fun m => Msg.mk m.role m.content))
          (strippedUserMessage t) (ragContextOf embed search t)
        generateInvoked := true
        ragInvoked := pyStartsWith t "/rag " } := by
  simp only [chat, resolve_conversation_some st cid hcid, hhr, hbp,
    call_ai, hlk, hgen, Bool.false_eq_true, if_false]

/-- Characterization of `chat` when the provider name does not resolve in the
registry: the modelled `NotFoundError` is re-surfaced by the handler's
catch-all as a 500, no provider `generate` runs, and the store is left
untouched. -/
theorem chat_not_found_spec (plugins : List Plugin) (providers : List (String × Provider))
    (embed : String → Option Vec) (search : Vec → Option (List (Chunk × String)))
    (st : ChatState) (message : String) (cid : Nat) (provider model : String)
    (t : String) (c : PipelineCtx) (ex : PhaseExit)
    (hcid : cid ≠ 0)
    (hhr : runProcessInputHooks plugins message (initCtx cid provider model) = ⟨t, c, ex⟩)
    (hbp : c.bypass_ai = false)
    (hlk : lookupProvider providers provider = none) :
    chat plugins providers embed search st message (some cid) provider model =
      { response := .error (.internal
          ("Internal server error: " ++ ("Provider not found: " ++ provider)))
        state := st
        assembledMessages := assembleMessages
          ((get_messages st.store cid (some 10)).map (fun m => Msg.mk m.role m.content))
          (strippedUserMessage t) (ragContextOf embed search t)
        generateInvoked := false
        ragInvoked := pyStartsWith t "/rag " } := by
  simp only [chat, resolve_conversation_some st cid hcid, hhr, hbp,
    call_ai, hlk, Bool.false_eq_true, if_false]

/-! ## Witness fixtures: concrete collaborators for closed instantiations -/

/-- An embedding oracle that always raises. -/
def embedFail : String → Option Vec := fun _ => none

/-- A vector-search oracle that always raises. -/
def searchFail : Vec → Option (List (Chunk × String)) := fun _ => none

/-- An embedding oracle that always succeeds with a fixed vector. -/
def embedOk : String → Option Vec := fun _ => some [1]

/-- A search oracle returning one fixed match. -/
def searchOne : Vec → Option (List (Chunk × String)) :=
  fun _ => some [(⟨"Paris is the capital.", some "doc1"⟩, "0.90")]

/-- A search oracle returning no matches. -/
def searchEmpty : Vec → Option (List (Chunk × String)) := fun _ => some []

/-- A provider with a configured key whose upstream always answers
`"Hello!"`. -/
def okProvider : Provider := ⟨some "k", fun _ _ => .ok "Hello!"⟩

/-- A provider with no configured API key. -/
def keylessProvider : Provider := ⟨none, fun _ _ => .ok "never"⟩

/-- A registry holding only the `okProvider` under the key `"groq"`. -/
def okRegistry : List (String × Provider) := [("groq", okProvider)]

/-- A plugin that replaces the text by `"/rag x"` and sets `bypass_ai`. -/
def bypassRagPlugin : Plugin :=
  ⟨"bypassRag", true,
   fun _ c => .ok (some "/rag x") { c with bypass_ai := true },
   fun _ c => .ok none c⟩

/-- A plugin whose two hooks both raise, leaving the context unchanged. -/
def raisingPlugin : Plugin :=
  ⟨"raiser", true, fun _ c => .raises c, fun _ c => .raises c⟩

/-- A plugin whose input hook returns `None` and whose output hook raises. -/
def outputRaisingPlugin : Plugin :=
  ⟨"outRaiser", true, fun _ c => .ok none c, fun _ c => .raises c⟩

/-- A plugin that replaces the text by `"done"` and sets `bypass_ai`. -/
def bypassPlainPlugin : Plugin :=
  ⟨"bypassPlain", true,
   fun _ c => .ok (some "done") { c with bypass_ai := true },
   fun _ c => .ok none c⟩

/-- A registry holding only the `keylessProvider` under the key `"groq"`. -/
def keylessRegistry : List (String × Provider) := [("groq", keylessProvider)]

/-! ## Claims -/

/-- C1 (amended): if the plugins before plugin `p` run to completion and `p`
returns the non-null text `R` having set `bypass_ai`, then
`run_process_input_hooks` returns `R` immediately — the result does not
depend on the plugins after `p` — and the chat operation never invokes any
provider's `generate` and returns `R` as the response UNLESS `R` begins with
the `"/rag "` trigger, in which case the RAG block (which runs before the
bypass check) strips the trigger and the response is `R` minus that
prefix. -/
theorem c1_bypass_short_circuit (pre post : List Plugin) (p : Plugin)
    (providers : List (String × Provider))
    (embed : String → Option Vec) (search : Vec → Option (List (Chunk × String)))
    (st : ChatState) (message t' R : String) (c' c'' : PipelineCtx)
    (cid : Nat) (provider model : String)
    (hcid : cid ≠ 0)
    (hpre : runProcessInputHooks pre message (initCtx cid provider model) =
      ⟨t', c', .completed⟩)
    (hp : p.enabled = true)
    (hres : p.process_input t' c' = .ok (some R) c'')
    (hbp : c''.bypass_ai = true) :
    runProcessInputHooks (pre ++ p :: post) message (initCtx cid provider model) =
      ⟨R, c'', .bypass⟩ ∧
    (chat (pre ++ p :: post) providers embed search st message (some cid) provider
      model).generateInvoked = false ∧
    (chat (pre ++ p :: post) providers embed search st message (some cid) provider
      model).response = .ok ⟨strippedUserMessage R, cid⟩ := by
  have hrun : runProcessInputHooks (pre ++ p :: post) message
      (initCtx cid provider model) = ⟨R, c'', .bypass⟩ := by
    rw [runProcessInputHooks_append pre (p :: post) message t' _ c' hpre]
    simp [runProcessInputHooks, hp, hres, hbp]
  have hc := chat_bypass_spec (pre ++ p :: post) providers embed search st message
    cid provider model R c'' .bypass hcid hrun hbp
  rw [hc]
  exact ⟨hrun, rfl, rfl⟩

/-- Counterexample to C1 as stated: a plugin returns `R = "/rag x"` with
`bypass_ai` set, yet the chat response is `"x"`, not `R` — the RAG trigger
check in `chat` runs before the bypass check and strips the prefix. -/
theorem c1_counterexample :
    bypassRagPlugin.process_input "hi" (initCtx 1 "groq" "m") =
      .ok (some "/rag x") ⟨1, "groq", "m", true, []⟩ ∧
    (chat [bypassRagPlugin] okRegistry embedFail searchFail ⟨[], 5⟩ "hi" (some 1)
      "groq" "m").response = .ok ⟨"x", 1⟩ ∧
    ("x" : String) ≠ "/rag x" := by
  refine ⟨rfl, by decide, by decide⟩

/-- Witness for C1: the amended theorem applied to one bypassing plugin. -/
theorem c1_witness :
    runProcessInputHooks [bypassRagPlugin] "hi" (initCtx 1 "groq" "m") =
      ⟨"/rag x", ⟨1, "groq", "m", true, []⟩, .bypass⟩ ∧
    (chat [bypassRagPlugin] okRegistry embedFail searchFail ⟨[], 5⟩ "hi" (some 1)
      "groq" "m").generateInvoked = false ∧
    (chat [bypassRagPlugin] okRegistry embedFail searchFail ⟨[], 5⟩ "hi" (some 1)
      "groq" "m").response = .ok ⟨strippedUserMessage "/rag x", 1⟩ := by
  have h := c1_bypass_short_circuit [] [] bypassRagPlugin okRegistry embedFail
    searchFail ⟨[], 5⟩ "hi" "hi" "/rag x" (initCtx 1 "groq" "m")
    ⟨1, "groq", "m", true, []⟩ 1 "groq" "m" (by decide) rfl rfl rfl rfl
  simpa using h

/-- C2 (amended): when the input phase ends with `bypass_ai` set, no
provider's `generate` is ever invoked, but the RAG retrieval step is skipped
only when the bypassed text does NOT begin with `"/rag "` — for a bypassed
text carrying the trigger, `chat` performs the retrieval (its result is
discarded apart from the trigger stripping) because the RAG block precedes
the bypass check. -/
theorem c2_bypass_skips_provider_not_rag (plugins : List Plugin)
    (providers : List (String × Provider))
    (embed : String → Option Vec) (search : Vec → Option (List (Chunk × String)))
    (st : ChatState) (message : String) (cid : Nat) (provider model : String)
    (t : String) (c : PipelineCtx) (ex : PhaseExit)
    (hcid : cid ≠ 0)
    (hhr : runProcessInputHooks plugins message (initCtx cid provider model) =
      ⟨t, c, ex⟩)
    (hbp : c.bypass_ai = true) :
    (chat plugins providers embed search st message (some cid) provider
      model).generateInvoked = false ∧
    (chat plugins providers embed search st message (some cid) provider
      model).ragInvoked = pyStartsWith t "/rag " := by
  have hc := chat_bypass_spec plugins providers embed search st message cid
    provider model t c ex hcid hhr hbp
  rw [hc]
  exact ⟨rfl, rfl⟩

/-- Counterexample to C2 as stated: the input phase short-circuits with
`bypass_ai` set, and yet the RAG retrieval step runs, because the bypassed
text begins with `"/rag "`. -/
theorem c2_counterexample :
    (runProcessInputHooks [bypassRagPlugin] "hi" (initCtx 1 "groq" "m")).ctx.bypass_ai =
      true ∧
    (chat [bypassRagPlugin] okRegistry embedFail searchFail ⟨[], 5⟩ "hi" (some 1)
      "groq" "m").ragInvoked = true := by
  refine ⟨rfl, by decide⟩

/-- Witness for C2: for a bypassing plugin that emits a non-trigger text,
the provider is skipped and so is retrieval. -/
theorem c2_witness :
    (chat [bypassPlainPlugin] okRegistry embedFail searchFail ⟨[], 5⟩ "hi" (some 1)
      "groq" "m").generateInvoked = false ∧
    (chat [bypassPlainPlugin] okRegistry embedFail searchFail ⟨[], 5⟩ "hi" (some 1)
      "groq" "m").ragInvoked = false := by
  have h := c2_bypass_skips_provider_not_rag [bypassPlainPlugin] okRegistry
    embedFail searchFail ⟨[], 5⟩ "hi" 1 "groq" "m" "done"
    ⟨1, "groq", "m", true, []⟩ .bypass (by decide) rfl rfl
  exact ⟨h.1, h.2.trans (by decide)⟩

/-- C3 (amended): on every successful, non-bypassed chat invocation exactly
two messages are persisted — the (possibly plugin-replaced, trigger-stripped)
user text with role `"user"`, and the output-hook-transformed text with role
`"ai"` (not `"assistant"`: the schema's CHECK constraint and the call in
`main.py` both use `"ai"`) tagged with `model_used` equal to the requested
model name — and nothing else is written. -/
theorem c3_two_messages_persisted (plugins : List Plugin)
    (providers : List (String × Provider))
    (embed : String → Option Vec) (search : Vec → Option (List (Chunk × String)))
    (st : ChatState) (message : String) (cid : Nat) (provider model : String)
    (t content out : String) (c c2 : PipelineCtx) (ex : PhaseExit) (pr : Provider)
    (hcid : cid ≠ 0)
    (hhr : runProcessInputHooks plugins message (initCtx cid provider model) =
      ⟨t, c, ex⟩)
    (hbp : c.bypass_ai = false)
    (hlk : lookupProvider providers provider = some pr)
    (hgen : pr.generate (assembleMessages
        ((get_messages st.store cid (some 10)).map (fun m => Msg.mk m.role m.content))
        (strippedUserMessage t) (ragContextOf embed search t)) model = .ok content)
    (hout : runProcessOutputHooks plugins content c = ⟨out, c2⟩) :
    (chat plugins providers embed search st message (some cid) provider
      model).state.store =
      st.store ++ [⟨cid, "user", strippedUserMessage t, none, none⟩,
                   ⟨cid, "ai", out, some model, none⟩] ∧
    (chat plugins providers embed search st message (some cid) provider
      model).response = .ok ⟨out, cid⟩ := by
  have hc := chat_success_spec plugins providers embed search st message cid
    provider model t content out c c2 ex pr hcid hhr hbp hlk hgen hout
  rw [hc]
  constructor
  · simp [add_message]
  · rfl

/-- Counterexample to C3 as stated: a successful run persists its second,
assistant-side row with role `"ai"`, which is not the claimed
`"assistant"`. -/
theorem c3_counterexample :
    (chat [] okRegistry embedFail searchFail ⟨[], 5⟩ "hi" (some 1) "groq"
      "m").state.store =
      [⟨1, "user", "hi", none, none⟩, ⟨1, "ai", "Hello!", some "m", none⟩] ∧
    ("ai" : String) ≠ "assistant" := by
  refine ⟨by decide, by decide⟩

/-- Witness for C3: the amended theorem applied to a concrete happy-path
run. -/
theorem c3_witness :
    (chat [] okRegistry embedFail searchFail ⟨[], 7⟩ "hello" (some 2) "groq"
      "m2").state.store =
      [⟨2, "user", "hello", none, none⟩, ⟨2, "ai", "Hello!", some "m2", none⟩] ∧
    (chat [] okRegistry embedFail searchFail ⟨[], 7⟩ "hello" (some 2) "groq"
      "m2").response = .ok ⟨"Hello!", 2⟩ := by
  have h := c3_two_messages_persisted [] okRegistry embedFail searchFail ⟨[], 7⟩
    "hello" 2 "groq" "m2" "hello" "Hello!" "Hello!" (initCtx 2 "groq" "m2")
    (initCtx 2 "groq" "m2") .completed okProvider (by decide) rfl rfl rfl rfl rfl
  simpa using h

/-- C5: when the resolved provider's `generate` raises a `ValueError`
(missing credential or upstream/network failure), `chat` surfaces a
client-visible 400 error and persists nothing — the conversation's message
sequence is unchanged. -/
theorem c5_provider_failure_no_persistence (plugins : List Plugin)
    (providers : List (String × Provider))
    (embed : String → Option Vec) (search : Vec → Option (List (Chunk × String)))
    (st : ChatState) (message : String) (cid : Nat) (provider model : String)
    (t d : String) (c : PipelineCtx) (ex : PhaseExit) (pr : Provider)
    (hcid : cid ≠ 0)
    (hhr : runProcessInputHooks plugins message (initCtx cid provider model) =
      ⟨t, c, ex⟩)
    (hbp : c.bypass_ai = false)
    (hlk : lookupProvider providers provider = some pr)
    (hgen : pr.generate (assembleMessages
        ((get_messages st.store cid (some 10)).map (fun m => Msg.mk m.role m.content))
        (strippedUserMessage t) (ragContextOf embed search t)) model = .error d) :
    (chat plugins providers embed search st message (some cid) provider
      model).response = .error (.badRequest d) ∧
    ChatError.status (.badRequest d) = 400 ∧
    (chat plugins providers embed search st message (some cid) provider
      model).state.store = st.store := by
  have hc := chat_value_error_spec plugins providers embed search st message cid
    provider model t d c ex pr hcid hhr hbp hlk hgen
  rw [hc]
  exact ⟨rfl, rfl, rfl⟩

/-- Witness for C5: a provider with no configured key fails the call with a
400 and leaves the one pre-existing row as the store's only content. -/
theorem c5_witness :
    (chat [] keylessRegistry embedFail searchFail
      ⟨[⟨1, "user", "old", none, none⟩], 5⟩ "boom" (some 1) "groq"
      "m").response = .error (.badRequest "Groq API key not configured") ∧
    ChatError.status (.badRequest "Groq API key not configured") = 400 ∧
    (chat [] keylessRegistry embedFail searchFail
      ⟨[⟨1, "user", "old", none, none⟩], 5⟩ "boom" (some 1) "groq"
      "m").state.store = [⟨1, "user", "old", none, none⟩] := by
  have h := c5_provider_failure_no_persistence [] keylessRegistry embedFail
    searchFail ⟨[⟨1, "user", "old", none, none⟩], 5⟩ "boom" 1 "groq" "m" "boom"
    "Groq API key not configured" (initCtx 1 "groq" "m") .completed
    keylessProvider (by decide) rfl rfl rfl rfl
  simpa using h

/-- C6: plugin error isolation — a plugin whose `process_input` or
`process_output` hook raises is caught inside the hook chain, the text is
unchanged for that unit, and iteration continues with the remaining plugins;
in particular a plugin whose `process_output` raises still results in the
unmodified model text being persisted and returned. -/
theorem c6_plugin_error_isolation (p q : Plugin)
    (hp : p.enabled = true) (hq : q.enabled = true) :
    (∀ (rest : List Plugin) (text : String) (ctx ctx' : PipelineCtx),
      p.process_input text ctx = .raises ctx' →
      runProcessInputHooks (p :: rest) text ctx =
        runProcessInputHooks rest text ctx') ∧
    (∀ (rest : List Plugin) (text : String) (ctx ctx' : PipelineCtx),
      p.process_output text ctx = .raises ctx' →
      runProcessOutputHooks (p :: rest) text ctx =
        runProcessOutputHooks rest text ctx') ∧
    (∀ (providers : List (String × Provider)) (embed : String → Option Vec)
      (search : Vec → Option (List (Chunk × String))) (st : ChatState)
      (message : String) (cid : Nat) (provider model : String) (pr : Provider)
      (content : String),
      cid ≠ 0 →
      (∀ u cc, q.process_input u cc = .ok none cc) →
      (∀ u cc, q.process_output u cc = .raises cc) →
      lookupProvider providers provider = some pr →
      pr.generate (assembleMessages
        ((get_messages st.store cid (some 10)).map (fun m => Msg.mk m.role m.content))
        (strippedUserMessage message) (ragContextOf embed search message)) model =
        .ok content →
      (chat [q] providers embed search st message (some cid) provider
        model).response = .ok ⟨content, cid⟩ ∧
      (chat [q] providers embed search st message (some cid) provider
        model).state.store =
        st.store ++ [⟨cid, "user", strippedUserMessage message, none, none⟩,
                     ⟨cid, "ai", content, some model, none⟩]) := by
  refine ⟨?_, ?_, ?_⟩
  · intro rest text ctx ctx' h
    simp [runProcessInputHooks, hp, h]
  · intro rest text ctx ctx' h
    simp [runProcessOutputHooks, hp, h]
  · intro providers embed search st message cid provider model pr content hcid
      hin hraise hlk hgen
    have hhr : runProcessInputHooks [q] message (initCtx cid provider model) =
        ⟨message, initCtx cid provider model, .completed⟩ := by
      simp [runProcessInputHooks, hq, hin]
    have hout : runProcessOutputHooks [q] content (initCtx cid provider model) =
        ⟨content, initCtx cid provider model⟩ := by
      simp [runProcessOutputHooks, hq, hraise]
    have hc := chat_success_spec [q] providers embed search st message cid
      provider model message content content (initCtx cid provider model)
      (initCtx cid provider model) .completed pr hcid hhr rfl hlk hgen hout
    rw [hc]
    constructor
    · rfl
    · simp [add_message]

/-- Witness for C6: a both-hooks-raising plugin leaves text and chain flow
unchanged, and an output-raising plugin still yields the raw model text
persisted and returned. -/
theorem c6_witness :
    runProcessInputHooks [raisingPlugin] "t" (initCtx 1 "groq" "m") =
      ⟨"t", initCtx 1 "groq" "m", .completed⟩ ∧
    runProcessOutputHooks [raisingPlugin] "t" (initCtx 1 "groq" "m") =
      ⟨"t", initCtx 1 "groq" "m"⟩ ∧
    (chat [outputRaisingPlugin] okRegistry embedFail searchFail ⟨[], 5⟩ "hi"
      (some 1) "groq" "m").response = .ok ⟨"Hello!", 1⟩ ∧
    (chat [outputRaisingPlugin] okRegistry embedFail searchFail ⟨[], 5⟩ "hi"
      (some 1) "groq" "m").state.store =
      [⟨1, "user", "hi", none, none⟩, ⟨1, "ai", "Hello!", some "m", none⟩] := by
  have h := c6_plugin_error_isolation raisingPlugin outputRaisingPlugin rfl rfl
  have h3 := h.2.2 okRegistry embedFail searchFail ⟨[], 5⟩ "hi" 1 "groq" "m"
    okProvider "Hello!" (by decide) (fun u cc => rfl) (fun u cc => rfl) rfl rfl
  have h1 := h.1 [] "t" (initCtx 1 "groq" "m") (initCtx 1 "groq" "m") rfl
  have h2 := h.2.1 [] "t" (initCtx 1 "groq" "m") (initCtx 1 "groq" "m") rfl
  exact ⟨h1.trans rfl, h2.trans rfl, h3.1, h3.2.trans (by decide)⟩

/-- C7 (amended): calling `chat` with a provider name absent from the
registry fails — the modelled `NotFoundError` from the (spec-modelled,
case-insensitive) registry lookup is converted by the handler's catch-all
into a 500 internal error rather than surfacing as a 404 — never silently
defaults to another provider (no `generate` runs), and persists nothing. -/
theorem c7_unknown_provider (plugins : List Plugin)
    (providers : List (String × Provider))
    (embed : String → Option Vec) (search : Vec → Option (List (Chunk × String)))
    (st : ChatState) (message : String) (cid : Nat) (provider model : String)
    (t : String) (c : PipelineCtx) (ex : PhaseExit)
    (hcid : cid ≠ 0)
    (hhr : runProcessInputHooks plugins message (initCtx cid provider model) =
      ⟨t, c, ex⟩)
    (hbp : c.bypass_ai = false)
    (hlk : lookupProvider providers provider = none) :
    (chat plugins providers embed search st message (some cid) provider
      model).response = .error (.internal
        ("Internal server error: " ++ ("Provider not found: " ++ provider))) ∧
    (chat plugins providers embed search st message (some cid) provider
      model).generateInvoked = false ∧
    (chat plugins providers embed search st message (some cid) provider
      model).state.store = st.store ∧
    (∀ n₁ n₂ : String, pyToLower n₁ = pyToLower n₂ →
      lookupProvider providers n₁ = lookupProvider providers n₂) := by
  have hc := chat_not_found_spec plugins providers embed search st message cid
    provider model t c ex hcid hhr hbp hlk
  rw [hc]
  refine ⟨rfl, rfl, rfl, fun n₁ n₂ h => ?_⟩
  simp [lookupProvider, h]

/-- Counterexample to C7 as stated: for the unknown provider name
`"nonexistent"` the error `chat` surfaces carries HTTP status 500 — the
handler's catch-all converts the registry's `NotFoundError` — not the
claimed 404-equivalent. -/
theorem c7_counterexample :
    (chat [] okRegistry embedFail searchFail ⟨[], 5⟩ "hi" (some 1) "nonexistent"
      "m").response =
      .error (.internal "Internal server error: Provider not found: nonexistent") ∧
    ChatError.status
      (.internal "Internal server error: Provider not found: nonexistent") = 500 ∧
    (500 : Nat) ≠ 404 := by
  refine ⟨by decide, rfl, by decide⟩

/-- Witness for C7: the amended theorem applied to the unknown name
`"mistral"`, plus a concrete case-insensitive lookup instance. -/
theorem c7_witness :
    (chat [] okRegistry embedFail searchFail ⟨[], 5⟩ "hi" (some 1) "mistral"
      "m").response =
      .error (.internal "Internal server error: Provider not found: mistral") ∧
    (chat [] okRegistry embedFail searchFail ⟨[], 5⟩ "hi" (some 1) "mistral"
      "m").generateInvoked = false ∧
    (chat [] okRegistry embedFail searchFail ⟨[], 5⟩ "hi" (some 1) "mistral"
      "m").state.store = [] ∧
    lookupProvider okRegistry "GROQ" = lookupProvider okRegistry "groq" := by
  have h := c7_unknown_provider [] okRegistry embedFail searchFail ⟨[], 5⟩ "hi" 1
    "mistral" "m" "hi" (initCtx 1 "mistral" "m") .completed (by decide) rfl rfl rfl
  exact ⟨h.1.trans (by decide), h.2.1, h.2.2.1, h.2.2.2 "GROQ" "groq" (by decide)⟩

/-- C9: for a post-input-hook text carrying the `"/rag "` trigger on a
non-bypassed, successful invocation, the stripped remainder serves both as
the retrieval query and as the final `user` message of the assembled context
and the persisted user row; when retrieval returns non-empty text exactly
one `system` message — the instruction plus the retrieved text — sits
immediately before that final user message. -/
theorem c9_rag_trigger_assembly (plugins : List Plugin)
    (providers : List (String × Provider))
    (embed : String → Option Vec) (search : Vec → Option (List (Chunk × String)))
    (st : ChatState) (message : String) (cid : Nat) (provider model : String)
    (t rag content out : String) (c c2 : PipelineCtx) (ex : PhaseExit)
    (pr : Provider) (hist : List Msg)
    (hcid : cid ≠ 0)
    (hhr : runProcessInputHooks plugins message (initCtx cid provider model) =
      ⟨t, c, ex⟩)
    (hstart : pyStartsWith t "/rag " = true)
    (hbp : c.bypass_ai = false)
    (hhist : (get_messages st.store cid (some 10)).map
      (fun m => Msg.mk m.role m.content) = hist)
    (hrag : perform_rag_search embed search (pyDrop t 5) = rag)
    (hlk : lookupProvider providers provider = some pr)
    (hgen : pr.generate (assembleMessages hist (pyDrop t 5) rag) model = .ok content)
    (hout : runProcessOutputHooks plugins content c = ⟨out, c2⟩) :
    (chat plugins providers embed search st message (some cid) provider
      model).assembledMessages =
      hist ++ (if rag = "" then [⟨"user", pyDrop t 5⟩]
               else [⟨"system", ragInstruction ++ rag⟩, ⟨"user", pyDrop t 5⟩]) ∧
    (chat plugins providers embed search st message (some cid) provider
      model).state.store =
      st.store ++ [⟨cid, "user", pyDrop t 5, none, none⟩,
                   ⟨cid, "ai", out, some model, none⟩] ∧
    (chat plugins providers embed search st message (some cid) provider
      model).response = .ok ⟨out, cid⟩ := by
  have hstrip : strippedUserMessage t = pyDrop t 5 := by
    simp [strippedUserMessage, hstart]
  have hragOf : ragContextOf embed search t = rag := by
    simp [ragContextOf, hstart, hrag]
  have hgen2 : pr.generate (assembleMessages
      ((get_messages st.store cid (some 10)).map (fun m => Msg.mk m.role m.content))
      (strippedUserMessage t) (ragContextOf embed search t)) model = .ok content := by
    rw [hhist, hstrip, hragOf]; exact hgen
  have hc := chat_success_spec plugins providers embed search st message cid
    provider model t content out c c2 ex pr hcid hhr hbp hlk hgen2 hout
  rw [hc]
  refine ⟨?_, ?_, rfl⟩
  · show assembleMessages _ _ _ = _
    rw [hhist, hstrip, hragOf, assembleMessages_eq]
  · show (add_message (add_message st cid "user" (strippedUserMessage t) none none)
      cid "ai" out (some model) none).store = _
    rw [hstrip]
    simp [add_message]

/-- Witness for C9: a concrete `"/rag france"` run with one retrieved chunk —
the system message with the retrieved block sits immediately before the
stripped user message, and the stripped text is what gets persisted. -/
theorem c9_witness :
    (chat [] okRegistry embedOk searchOne ⟨[], 5⟩ "/rag france" (some 1) "groq"
      "m").assembledMessages =
      [⟨"system", "Use the following context to answer the user's question:\nSource: doc1 (Score: 0.90)\nContent: Paris is the capital."⟩,
       ⟨"user", "france"⟩] ∧
    (chat [] okRegistry embedOk searchOne ⟨[], 5⟩ "/rag france" (some 1) "groq"
      "m").state.store =
      [⟨1, "user", "france", none, none⟩, ⟨1, "ai", "Hello!", some "m", none⟩] ∧
    (chat [] okRegistry embedOk searchOne ⟨[], 5⟩ "/rag france" (some 1) "groq"
      "m").response = .ok ⟨"Hello!", 1⟩ := by
  have h := c9_rag_trigger_assembly [] okRegistry embedOk searchOne ⟨[], 5⟩
    "/rag france" 1 "groq" "m" "/rag france"
    "Source: doc1 (Score: 0.90)\nContent: Paris is the capital." "Hello!" "Hello!"
    (initCtx 1 "groq" "m") (initCtx 1 "groq" "m") .completed okProvider []
    (by decide) rfl (by decide) rfl rfl (by decide) rfl rfl rfl
  refine ⟨?_, ?_, h.2.2⟩
  · rw [h.1]; decide
  · rw [h.2.1]; decide

/-- C10: for every conversation, `get_messages` with `limit = 0` behaves as
if no limit had been given — the Python truthiness test `if limit:` skips the
`LIMIT` clause for `0` just as for `None` — so every message of the
conversation is returned in timestamp order. -/
theorem c10_limit_zero_returns_all (store : List StoredMessage) (cid : Nat) :
    get_messages store cid (some 0) = get_messages store cid none ∧
    get_messages store cid (some 0) =
      store.filter (fun m => m.conversation_id = cid) := by
  constructor <;> simp [get_messages]

/-- C4 (code bug): with eleven messages persisted for a conversation and
`limit = 10` (the value `chat` passes), `get_messages` returns the ten
OLDEST messages — the `LIMIT` clause applies after `ORDER BY timestamp ASC` —
not the ten most recent ones that the spec (and `main.py`'s own comment
`# Get previous messages (last 10)`) call for: message `"0"`, not the newest
message `"10"`, is included, and the result differs from the ten most
recent. -/
theorem c4_limit_returns_oldest_not_recent :
    (get_messages
        ((List.range 11).map (fun i =>
          ⟨1, "user", toString i, none, none⟩)) 1 (some 10)).map
        (fun m => m.content) =
      ["0", "1", "2", "3", "4", "5", "6", "7", "8", "9"] ∧
    (get_messages
        ((List.range 11).map (fun i =>
          ⟨1, "user", toString i, none, none⟩)) 1 (some 10)).map
        (fun m => m.content) ≠
      ["1", "2", "3", "4", "5", "6", "7", "8", "9", "10"] := by
  constructor <;> decide

/-- C8: `perform_rag_search` is total and best-effort — a raising embedding
step, a raising vector search, and an empty result list all yield the empty
string, and a non-empty result list yields the labelled
`Source/Score/Content` blocks joined by the `"\n---\n"` separator. -/
theorem c8_rag_best_effort (embed : String → Option Vec)
    (search : Vec → Option (List (Chunk × String))) (q : String) :
    (embed q = none → perform_rag_search embed search q = "") ∧
    (∀ v, embed q = some v → search v = none →
      perform_rag_search embed search q = "") ∧
    (∀ v, embed q = some v → search v = some [] →
      perform_rag_search embed search q = "") ∧
    (∀ v rs, embed q = some v → search v = some rs → rs ≠ [] →
      perform_rag_search embed search q =
        String.intercalate "\n---\n" (rs.map (fun r => formatChunk r.1 r.2))) := by
  refine ⟨fun h => ?_, fun v h1 h2 => ?_, fun v h1 h2 => ?_, fun v rs h1 h2 h3 => ?_⟩ <;>
    simp [perform_rag_search, *]

/-- Witness for C8: a raising embedding oracle degrades to the empty string,
and a one-match search yields the single labelled block. -/
theorem c8_witness :
    perform_rag_search embedFail searchFail "q" = "" ∧
    perform_rag_search embedOk searchOne "q" =
      "Source: doc1 (Score: 0.90)\nContent: Paris is the capital." := by
  constructor
  · exact (c8_rag_best_effort embedFail searchFail "q").1 rfl
  · have h := (c8_rag_best_effort embedOk searchOne "q").2.2.2
      [1] [(⟨"Paris is the capital.", some "doc1"⟩, "0.90")] rfl rfl (by simp)
    rw [h]
    rfl

end PersonaChat
